import Mathlib

/-!
Verification of the ServFlo client-side data-consistency layer.

Shallow embedding of:
* the request cache coordinator (`shouldFetchData`, `markFetchComplete`,
  `markFetchFailed`, `invalidateCache`, `invalidateAllCaches`) from
  `src/unnamed/part_001`;
* the error classifier and resilient executor (`categorizeError`,
  `shouldRetryOperation`, `createAppError`, `withRetry`) from
  `src/lib/utils/errorHandler.ts`;
* the lifecycle stage deriver (`useCustomerStage`) from
  `src/hooks/useCustomerStage.ts`;
* the jobs entity store (`fetchJobs`, `addJob`, `updateJob`, `deleteJob`)
  from `src/store/optimizedJobStore.ts`.

State threading conventions: the ambient singleton fetch cache becomes an
explicit `Ledger` value; `Date.now()` readings become explicit `Nat`
parameters; `navigator.onLine` becomes an explicit `Bool` parameter;
network / IndexedDB interactions become explicit `Except` / `Option`
parameters describing the collaborator's response, plus an effect trace
listing which collaborators were touched.
-/

namespace ServFlo

/-- Substring test on character lists: JavaScript `String.includes`. -/
def charsContains [BEq α] (pat : List α) : List α → Bool
  | [] => pat.isEmpty
  | c :: rest => pat.isPrefixOf (c :: rest) || charsContains pat rest

/-- JavaScript `s.includes(pat)` on strings. -/
def strIncludes (s pat : String) : Bool :=
  charsContains pat.data s.data

/-- JavaScript `s.toLowerCase()`: character-wise basic-latin lowering
(structural counterpart of `String.toLower`, which the kernel cannot
evaluate because `String.mapAux` recurses on byte positions). -/
def strToLower (s : String) : String :=
  ⟨s.data.map Char.toLower⟩

/-! ## Request cache coordinator (src/unnamed/part_001) -/

/-- One fetch-ledger entry: `{ timestamp, inProgress }`. -/
structure CacheEntry where
  timestamp : Nat
  inProgress : Bool
deriving DecidableEq, Repr

/-- Cache expiry time in milliseconds (5 minutes). -/
def CACHE_EXPIRY : Nat := 5 * 60 * 1000

/-- The fetch cache: a partial map from data-type keys to entries
(the JavaScript object `fetchCache`). -/
def Ledger : Type := String → Option CacheEntry

/-- The initial, empty fetch cache. -/
def emptyLedger : Ledger := fun _ => none

/-- Assignment `fetchCache[dataType] = e`. -/
def ledgerSet (cache : Ledger) (dataType : String) (e : CacheEntry) : Ledger :=
  fun k => if k == dataType then some e else cache k

/-- Deletion `delete fetchCache[dataType]`. -/
def ledgerDelete (cache : Ledger) (dataType : String) : Ledger :=
  fun k => if k == dataType then none else cache k

/-- `shouldFetchData(dataType, forceRefresh)`: returns the boolean result
together with the updated cache.  `now` is the `Date.now()` reading. -/
def shouldFetchData (cache : Ledger) (now : Nat) (dataType : String)
    (forceRefresh : Bool) : Bool × Ledger :=
  if forceRefresh then
    (true, ledgerSet cache dataType ⟨now, true⟩)
  else
    match cache dataType with
    | some cacheEntry =>
      if cacheEntry.inProgress then
        (false, cache)
      else if (now : Int) - (cacheEntry.timestamp : Int) > (CACHE_EXPIRY : Int) then
        (true, ledgerSet cache dataType ⟨now, true⟩)
      else
        (false, cache)
    | none => (true, ledgerSet cache dataType ⟨now, true⟩)

/-- `markFetchComplete(dataType)`: fresh timestamp, not in progress. -/
def markFetchComplete (cache : Ledger) (now : Nat) (dataType : String) : Ledger :=
  ledgerSet cache dataType ⟨now, false⟩

/-- `markFetchFailed(dataType)`: keeps the previous timestamp
(`fetchCache[dataType]?.timestamp || 0`) but marks not in progress. -/
def markFetchFailed (cache : Ledger) (dataType : String) : Ledger :=
  ledgerSet cache dataType ⟨((cache dataType).map CacheEntry.timestamp).getD 0, false⟩

/-- `invalidateCache(dataType)`: removes the entry. -/
def invalidateCache (cache : Ledger) (dataType : String) : Ledger :=
  ledgerDelete cache dataType

/-- `invalidateAllCaches()`: removes every entry. -/
def invalidateAllCaches (_cache : Ledger) : Ledger :=
  fun _ => none

/-! ## Error classifier (src/lib/utils/errorHandler.ts) -/

/-- The fixed error taxonomy (`ErrorCategory` enum). -/
inductive ErrorCategory where
  | network
  | authentication
  | authorization
  | validation
  | not_found
  | server
  | database
  | offline
  | unknown
deriving DecidableEq, Repr

/-- A raw (duck-typed) error value, restricted to the fields the classifier
probes: `code`, `status`, `message`, and whether it is a `TypeError`. -/
structure ErrVal where
  code : Option String
  status : Option Nat
  message : Option String
  isTypeError : Bool
deriving DecidableEq, Repr

/-- Supabase error-code table (`supabaseErrorMap`). -/
def supabaseErrorMap (code : String) : Option ErrorCategory :=
  if code == "PGRST301" then some .not_found
  else if code == "PGRST204" then some .validation
  else if code == "23505" then some .validation
  else if code == "23503" then some .validation
  else if code == "22P02" then some .validation
  else if code == "23502" then some .validation
  else if code == "42P01" then some .not_found
  else if code == "42P02" then some .not_found
  else if code == "42501" then some .authorization
  else if code == "42883" then some .server
  else if code == "57014" then some .server
  else if code == "53300" then some .server
  else if code == "53100" then some .server
  else none

/-- HTTP status-code table (`httpErrorMap`). -/
def httpErrorMap (status : Nat) : Option ErrorCategory :=
  if status == 400 then some .validation
  else if status == 401 then some .authentication
  else if status == 403 then some .authorization
  else if status == 404 then some .not_found
  else if status == 409 then some .validation
  else if status == 422 then some .validation
  else if status == 429 then some .server
  else if status == 500 then some .server
  else if status == 502 then some .server
  else if status == 503 then some .server
  else if status == 504 then some .server
  else none

/-- JavaScript truthiness of an optional string (absent and `""` are falsy). -/
def jsTruthyStr : Option String → Bool
  | none => false
  | some s => s != ""

/-- JavaScript truthiness of an optional number (absent and `0` are falsy). -/
def jsTruthyNat : Option Nat → Bool
  | none => false
  | some n => n != 0

/-- `error?.message?.includes(sub)` with JavaScript optional chaining. -/
def msgIncludes (error : ErrVal) (sub : String) : Bool :=
  match error.message with
  | some m => strIncludes m sub
  | none => false

/-- `categorizeError(error)`.  `onLine` is the `navigator.onLine` reading at
the moment of the call. -/
def categorizeError (onLine : Bool) (error : ErrVal) : ErrorCategory :=
  if !onLine then
    .offline
  else if jsTruthyStr error.code && (supabaseErrorMap (error.code.getD "")).isSome then
    (supabaseErrorMap (error.code.getD "")).getD .unknown
  else if jsTruthyNat error.status && (httpErrorMap (error.status.getD 0)).isSome then
    (httpErrorMap (error.status.getD 0)).getD .unknown
  else if msgIncludes error "auth" || msgIncludes error "token" ||
      msgIncludes error "credential" || msgIncludes error "login" then
    .authentication
  else if msgIncludes error "network" || msgIncludes error "fetch" ||
      msgIncludes error "connection" || error.isTypeError then
    .network
  else
    .unknown

/-- JavaScript `x || d` on an optional string result. -/
def jsStrOr (m : Option String) (d : String) : String :=
  match m with
  | some s => if s == "" then d else s
  | none => d

/-- `getUserFriendlyMessage(error)`. -/
def getUserFriendlyMessage (onLine : Bool) (error : ErrVal) : String :=
  match categorizeError onLine error with
  | .network => "Network connection issue. Please check your internet connection and try again."
  | .offline => "You are currently offline. Some features may be unavailable."
  | .authentication => "Authentication failed. Please log in again."
  | .authorization => "You do not have permission to perform this action."
  | .validation => jsStrOr error.message "The information provided is invalid. Please check and try again."
  | .not_found => "The requested information could not be found."
  | .server => "The server encountered an error. Please try again later."
  | .database => "There was a database error. Please try again later."
  | .unknown => jsStrOr error.message "An unexpected error occurred. Please try again."

/-- `getErrorSuggestions(category)`. -/
def getErrorSuggestions (category : ErrorCategory) : List String :=
  match category with
  | .network =>
    ["Check your internet connection",
     "Try refreshing the page",
     "If the problem persists, contact support"]
  | .offline =>
    ["Connect to the internet to sync data",
     "You can continue working with limited functionality",
     "Your changes will be saved locally and synced when you reconnect"]
  | .authentication =>
    ["Try logging in again",
     "Clear your browser cache and cookies",
     "Contact support if the problem persists"]
  | .authorization =>
    ["Check if you have the necessary permissions",
     "Contact your administrator",
     "Try logging out and back in"]
  | .validation =>
    ["Check the information you provided",
     "Ensure all required fields are filled correctly",
     "Fix any highlighted errors and try again"]
  | .not_found =>
    ["Check if the item was deleted",
     "Try searching with different criteria",
     "Return to the previous page"]
  | .server =>
    ["Try again in a few minutes",
     "Refresh the page",
     "Contact support if the problem persists"]
  | .database =>
    ["Try again in a few minutes",
     "Refresh the page",
     "Contact support if the problem persists"]
  | .unknown =>
    ["Try again",
     "Refresh the page",
     "Contact support if the problem persists"]

/-- The standardized error object (`AppError`).  The optional `retry`
callback is represented by a presence marker since its body is never
inspected. -/
structure AppError where
  message : String
  category : ErrorCategory
  code : Option String
  originalError : ErrVal
  retry : Option Unit
  suggestions : List String
deriving DecidableEq, Repr

/-- `createAppError(error, retry?)`. -/
def createAppError (onLine : Bool) (error : ErrVal) (retry : Option Unit) : AppError :=
  { message := getUserFriendlyMessage onLine error
    category := categorizeError onLine error
    code := error.code
    originalError := error
    retry := retry
    suggestions := getErrorSuggestions (categorizeError onLine error) }

/-- `shouldRetryOperation(error)`: retry only network, server and database
categories. -/
def shouldRetryOperation (onLine : Bool) (error : ErrVal) : Bool :=
  [ErrorCategory.network, ErrorCategory.server, ErrorCategory.database].contains
    (categorizeError onLine error)

/-- Loop body of `withRetry`.  `op k` is the outcome of the `k`-th invocation
of the wrapped operation; `fuel` is `maxRetries - attempt` (the loop guard
`attempt === maxRetries` is exactly `fuel = 0`).  Returns the final outcome
and the number of invocations performed.  The backoff delay affects timing
only, never the attempt sequence, so it is not modelled. -/
def withRetryGo (op : Nat → Except ErrVal α) (onLine : Bool) :
    Nat → Nat → Except AppError α × Nat
  | attempt, 0 =>
    match op attempt with
    | .ok v => (.ok v, 1)
    | .error e => (.error (createAppError onLine e none), 1)
  | attempt, fuel + 1 =>
    match op attempt with
    | .ok v => (.ok v, 1)
    | .error e =>
      if shouldRetryOperation onLine e then
        ((withRetryGo op onLine (attempt + 1) fuel).1,
         (withRetryGo op onLine (attempt + 1) fuel).2 + 1)
      else (.error (createAppError onLine e none), 1)

/-- `withRetry(operation, maxRetries, delayMs)`: outcome plus number of
invocations of the wrapped operation. -/
def withRetry (op : Nat → Except ErrVal α) (onLine : Bool) (maxRetries : Nat) :
    Except AppError α × Nat :=
  withRetryGo op onLine 0 maxRetries

/-! ## Lifecycle stage deriver (src/hooks/useCustomerStage.ts) -/

/-- Icons attached to stages (lucide-react imports). -/
inductive IconType where
  | fileText
  | calendar
  | clock
  | creditCard
deriving DecidableEq, Repr

/-- Stage grouping category (`'estimate' | 'job' | 'invoice'`). -/
inductive StageCategory where
  | estimate
  | job
  | invoice
deriving DecidableEq, Repr

/-- A derived customer stage (`CustomerStage` interface). -/
structure CustomerStage where
  label : String
  icon : IconType
  bgColor : String
  textColor : String
  category : StageCategory
deriving DecidableEq, Repr

/-- An estimate record, restricted to the fields this layer reads. -/
structure Estimate where
  customer_id : String
  status : String
deriving DecidableEq, Repr

/-- A job record, restricted to the fields this layer reads. -/
structure Job where
  id : String
  customer_id : String
  description : String
  status : String
  created_at : String
deriving DecidableEq, Repr

/-- An invoice record, restricted to the fields this layer reads. -/
structure Invoice where
  customer_id : String
  job_id : Option String
  status : String
deriving DecidableEq, Repr

/-- `j.description.toLowerCase().includes('estimate visit')`. -/
def isEstimateVisitJob (j : Job) : Bool :=
  strIncludes (strToLower j.description) "estimate visit"

/-- `customerJobs`: this customer's non-estimate-visit jobs. -/
def customerJobsOf (customerId : String) (jobs : List Job) : List Job :=
  jobs.filter fun j => j.customer_id == customerId && !(isEstimateVisitJob j)

/-- `customerInvoices`: this customer's invoices. -/
def customerInvoicesOf (customerId : String) (invoices : List Invoice) : List Invoice :=
  invoices.filter fun i => i.customer_id == customerId

/-- `customerEstimates`: this customer's estimates. -/
def customerEstimatesOf (customerId : String) (estimates : List Estimate) : List Estimate :=
  estimates.filter fun e => e.customer_id == customerId

/-- `allJobsHaveInvoices`: every customer job has a matching invoice (and
there is at least one customer job). -/
def allJobsHaveInvoices (customerId : String) (jobs : List Job)
    (invoices : List Invoice) : Bool :=
  !(customerJobsOf customerId jobs).isEmpty &&
    (customerJobsOf customerId jobs).all fun job =>
      (customerInvoicesOf customerId invoices).any fun invoice =>
        invoice.job_id == some job.id

/-- `allInvoicesPaid`: every customer invoice is paid or void (and there is
at least one customer invoice). -/
def allInvoicesPaid (customerId : String) (invoices : List Invoice) : Bool :=
  !(customerInvoicesOf customerId invoices).isEmpty &&
    (customerInvoicesOf customerId invoices).all fun invoice =>
      invoice.status == "paid" || invoice.status == "void"

/-- The rule-1 completion short-circuit condition
(`allJobsHaveInvoices && allInvoicesPaid && customerJobs.length > 0`). -/
def completionDone (customerId : String) (jobs : List Job)
    (invoices : List Invoice) : Bool :=
  allJobsHaveInvoices customerId jobs invoices &&
    allInvoicesPaid customerId invoices &&
    !(customerJobsOf customerId jobs).isEmpty

/-- `hasRejectedEstimateOnly`: at least one estimate and all rejected. -/
def hasRejectedEstimateOnly (customerId : String) (estimates : List Estimate) : Bool :=
  !(customerEstimatesOf customerId estimates).isEmpty &&
    (customerEstimatesOf customerId estimates).all fun est => est.status == "rejected"

/-- `hasPendingPayment`: some customer invoice is draft or overdue. -/
def hasPendingPayment (customerId : String) (invoices : List Invoice) : Bool :=
  invoices.any fun i =>
    i.customer_id == customerId && (i.status == "draft" || i.status == "overdue")

/-- `hasScheduledJob`: some non-estimate-visit customer job is scheduled or
in progress. -/
def hasScheduledJob (customerId : String) (jobs : List Job) : Bool :=
  jobs.any fun j =>
    j.customer_id == customerId && !(isEstimateVisitJob j) &&
      (j.status == "scheduled" || j.status == "in_progress")

/-- `hasScheduledEstimateVisit`: some estimate-visit customer job is
scheduled or in progress. -/
def hasScheduledEstimateVisit (customerId : String) (jobs : List Job) : Bool :=
  jobs.any fun j =>
    j.customer_id == customerId && isEstimateVisitJob j &&
      (j.status == "scheduled" || j.status == "in_progress")

/-- `hasPendingEstimate`: some customer estimate is pending. -/
def hasPendingEstimate (customerId : String) (estimates : List Estimate) : Bool :=
  estimates.any fun e => e.customer_id == customerId && e.status == "pending"

/-- `hasApprovedEstimate`: some customer estimate is approved. -/
def hasApprovedEstimate (customerId : String) (estimates : List Estimate) : Bool :=
  estimates.any fun e => e.customer_id == customerId && e.status == "approved"

/-- `hasCompletedJob`: some completed non-estimate-visit customer job has no
matching invoice. -/
def hasCompletedJobNeedingInvoice (customerId : String) (jobs : List Job)
    (invoices : List Invoice) : Bool :=
  jobs.any fun j =>
    j.customer_id == customerId && j.status == "completed" &&
      !(isEstimateVisitJob j) && !(invoices.any fun i => i.job_id == some j.id)

/-- Stage pushed by the needs-estimate rule. -/
def estimatesQueueStage : CustomerStage :=
  ⟨"Estimates Queue", .fileText, "", "text-[#008B37]", .estimate⟩

/-- Stage pushed by the pending-payment rule. -/
def pendingPaymentStage : CustomerStage :=
  ⟨"Pending Payment", .creditCard, "", "text-[#475569]", .invoice⟩

/-- Stage pushed by the scheduled-job rule. -/
def jobScheduledStage : CustomerStage :=
  ⟨"Job Scheduled", .calendar, "", "text-[#f57c00]", .job⟩

/-- Stage pushed by the scheduled-estimate-visit rule. -/
def scheduledEstimateStage : CustomerStage :=
  ⟨"Scheduled Estimate", .calendar, "", "text-[#008B37]", .estimate⟩

/-- Stage pushed by the pending-estimate rule. -/
def pendingEstimateStage : CustomerStage :=
  ⟨"Pending Estimate", .clock, "", "text-[#008B37]", .estimate⟩

/-- Stage pushed by the approved-estimate rule. -/
def jobsQueueStage : CustomerStage :=
  ⟨"Jobs Queue", .calendar, "", "text-[#f57c00]", .job⟩

/-- Stage pushed by the completed-job-needing-invoice rule. -/
def needsInvoiceStage : CustomerStage :=
  ⟨"Needs Invoice", .fileText, "", "text-[#475569]", .invoice⟩

/-- `useCustomerStage(customerId, needsEstimate)` over explicit snapshots of
the three entity stores: the ordered stage derivation. -/
def useCustomerStage (customerId : String) (needsEstimate : Bool)
    (estimates : List Estimate) (jobs : List Job) (invoices : List Invoice) :
    List CustomerStage :=
  if completionDone customerId jobs invoices then [] else
  let stages1 := if needsEstimate then [estimatesQueueStage] else []
  if hasRejectedEstimateOnly customerId estimates then [] else
  let stages2 := stages1 ++ if hasPendingPayment customerId invoices then [pendingPaymentStage] else []
  let stages3 := stages2 ++ if hasScheduledJob customerId jobs then [jobScheduledStage] else []
  let stages4 := stages3 ++ if hasScheduledEstimateVisit customerId jobs then [scheduledEstimateStage] else []
  let stages5 := stages4 ++ if hasPendingEstimate customerId estimates then [pendingEstimateStage] else []
  let stages6 := stages5 ++ if hasApprovedEstimate customerId estimates then [jobsQueueStage] else []
  stages6 ++ if hasCompletedJobNeedingInvoice customerId jobs invoices then [needsInvoiceStage] else []

/-! ## Jobs entity store (src/store/optimizedJobStore.ts) -/

/-- The zustand store state `{ jobs, loading, error }`. -/
structure JobState where
  jobs : List Job
  loading : Bool
  error : Option String
deriving DecidableEq, Repr

/-- Collaborator accesses performed by `fetchJobs`, in order. -/
inductive FetchEffect where
  | mirrorRead
  | networkSelect
  | mirrorWrite
deriving DecidableEq, Repr

/-- `fetchJobs(forceRefresh)`.  `now` is the `Date.now()` reading inside the
gate, `nowComplete` the one inside `markFetchComplete`; `localFirst` and
`localFallback` are the two IndexedDB reads (`some data` on success); `net`
is the remote select outcome.  Returns the new store state, the new fetch
cache, and the trace of collaborator accesses. -/
def fetchJobs (cache : Ledger) (now nowComplete : Nat) (st : JobState)
    (forceRefresh : Bool) (localFirst localFallback : Option (List Job))
    (net : Except ErrVal (List Job)) : JobState × Ledger × List FetchEffect :=
  let r := shouldFetchData cache now "jobs" forceRefresh
  if !r.1 then
    (st, r.2, [])
  else
    let st1 : JobState := { st with loading := true, error := none }
    let st2 : JobState :=
      match localFirst with
      | some data => { st1 with jobs := data, loading := false }
      | none => st1
    match net with
    | .ok data =>
      ({ st2 with jobs := data, loading := false, error := none },
       markFetchComplete r.2 nowComplete "jobs",
       [FetchEffect.mirrorRead, FetchEffect.networkSelect] ++
         (if !data.isEmpty then [FetchEffect.mirrorWrite] else []))
    | .error _ =>
      match localFallback with
      | some data =>
        ({ st2 with
            jobs := data
            loading := false
            error := some "Using cached job data. Some information may not be up to date." },
         markFetchFailed r.2 "jobs",
         [FetchEffect.mirrorRead, FetchEffect.networkSelect, FetchEffect.mirrorRead])
      | none =>
        ({ st2 with
            jobs := []
            loading := false
            error := some "Unable to load jobs. Please check your connection." },
         markFetchFailed r.2 "jobs",
         [FetchEffect.mirrorRead, FetchEffect.networkSelect, FetchEffect.mirrorRead])

/-- A job payload without `id` and `created_at`
(`Omit<Job, 'id' | 'created_at'>`). -/
structure NewJob where
  customer_id : String
  description : String
  status : String
deriving DecidableEq, Repr

/-- Spread `{ ...newJob, id, created_at }`. -/
def mkJob (nj : NewJob) (id : String) (created_at : String) : Job :=
  { id := id
    customer_id := nj.customer_id
    description := nj.description
    status := nj.status
    created_at := created_at }

/-- A partial update (`Partial<Job>`): absent fields are left unchanged. -/
structure JobPatch where
  id : Option String
  customer_id : Option String
  description : Option String
  status : Option String
  created_at : Option String
deriving DecidableEq, Repr

/-- Spread merge `{ ...job, ...updates }`. -/
def applyPatch (job : Job) (updates : JobPatch) : Job :=
  { id := updates.id.getD job.id
    customer_id := updates.customer_id.getD job.customer_id
    description := updates.description.getD job.description
    status := updates.status.getD job.status
    created_at := updates.created_at.getD job.created_at }

/-- Payload of a queued offline change. -/
inductive QueuedData where
  | createJob (j : Job)
  | updateJobData (id : String) (p : JobPatch)
  | deleteJobData (id : String)
deriving DecidableEq, Repr

/-- An entry passed to `syncManager.queueChange`. -/
structure QueuedChange where
  type : String
  operation : String
  data : QueuedData
deriving DecidableEq, Repr

/-- The `addJob` argument: a single record or an array of records. -/
inductive AddJobInput where
  | single (j : NewJob)
  | batch (js : List NewJob)
deriving DecidableEq, Repr

/-- `addJob(job)`.  `onLine` is `navigator.onLine`; `freshId k` is the `k`-th
`crypto.randomUUID()` draw; `nowIso` is `new Date().toISOString()`;
`remoteBatch` / `remoteSingle` are the remote insert outcomes for the two
input shapes.  Returns the resolved value (`Except.ok` — the catch clause
swallows the failure and resolves with `null`, i.e. `Except.ok none`), the
new store state, the new fetch cache, and the sync-queue entries written. -/
def addJob (st : JobState) (cache : Ledger) (onLine : Bool) (input : AddJobInput)
    (freshId : Nat → String) (nowIso : String)
    (remoteBatch : Except ErrVal (Option (List Job)))
    (remoteSingle : Except ErrVal (Option Job)) :
    Except ErrVal (Option (List Job)) × JobState × Ledger × List QueuedChange :=
  let st0 : JobState := { st with loading := true, error := none }
  if !onLine then
    match input with
    | .batch js =>
      let tempJobs := js.enum.map fun p => mkJob p.2 (freshId p.1) nowIso
      (.ok (some tempJobs),
       { st0 with jobs := tempJobs ++ st0.jobs, loading := false, error := none },
       invalidateCache cache "jobs",
       tempJobs.map fun j => ⟨"jobs", "create", .createJob j⟩)
    | .single j =>
      let tempJob := mkJob j (freshId 0) nowIso
      (.ok (some [tempJob]),
       { st0 with jobs := [tempJob] ++ st0.jobs, loading := false, error := none },
       invalidateCache cache "jobs",
       [⟨"jobs", "create", .createJob tempJob⟩])
  else
    match input with
    | .batch _ =>
      match remoteBatch with
      | .ok data =>
        (.ok data,
         { st0 with jobs := data.getD [] ++ st0.jobs, loading := false, error := none },
         invalidateCache cache "jobs", [])
      | .error e =>
        (.ok none, { st0 with loading := false, error := e.message }, cache, [])
    | .single _ =>
      match remoteSingle with
      | .ok data =>
        (.ok (data.map fun d => [d]),
         { st0 with
            jobs := (match data with | some d => d :: st0.jobs | none => st0.jobs)
            loading := false
            error := none },
         invalidateCache cache "jobs", [])
      | .error e =>
        (.ok none, { st0 with loading := false, error := e.message }, cache, [])

/-- `updateJob(id, updates)`.  `remote` is the remote update outcome; an
online remote failure is rethrown (`Except.error`). -/
def updateJob (st : JobState) (cache : Ledger) (onLine : Bool) (id : String)
    (updates : JobPatch) (remote : Except ErrVal Unit) :
    Except ErrVal Unit × JobState × Ledger × List QueuedChange :=
  let st0 : JobState := { st with loading := true, error := none }
  if !onLine then
    (.ok (),
     { st0 with
        jobs := st0.jobs.map fun job => if job.id == id then applyPatch job updates else job
        loading := false
        error := none },
     invalidateCache cache "jobs",
     [⟨"jobs", "update", .updateJobData id updates⟩])
  else
    match remote with
    | .ok _ =>
      (.ok (),
       { st0 with
          jobs := st0.jobs.map fun job => if job.id == id then applyPatch job updates else job
          loading := false
          error := none },
       invalidateCache cache "jobs", [])
    | .error e =>
      (.error e, { st0 with loading := false, error := e.message }, cache, [])

/-- `deleteJob(id)`.  `remote` is the remote delete outcome; an online remote
failure is rethrown (`Except.error`). -/
def deleteJob (st : JobState) (cache : Ledger) (onLine : Bool) (id : String)
    (remote : Except ErrVal Unit) :
    Except ErrVal Unit × JobState × Ledger × List QueuedChange :=
  let st0 : JobState := { st with loading := true, error := none }
  if !onLine then
    (.ok (),
     { st0 with
        jobs := st0.jobs.filter fun job => job.id != id
        loading := false
        error := none },
     invalidateCache cache "jobs",
     [⟨"jobs", "delete", .deleteJobData id⟩])
  else
    match remote with
    | .ok _ =>
      (.ok (),
       { st0 with
          jobs := st0.jobs.filter fun job => job.id != id
          loading := false
          error := none },
       invalidateCache cache "jobs", [])
    | .error e =>
      (.error e, { st0 with loading := false, error := e.message }, cache, [])

/-- Iterated `shouldFetchData(key, false)` at the given sequence of
`Date.now()` readings, threading the fetch cache. -/
def shouldFetchRuns (cache : Ledger) (key : String) : List Nat → List Bool × Ledger
  | [] => ([], cache)
  | t :: ts =>
    let r := shouldFetchData cache t key false
    let rest := shouldFetchRuns r.2 key ts
    (r.1 :: rest.1, rest.2)

/-- A ledger whose `jobs` entry marks a fetch in flight, used as a concrete
test state. -/
def jobsInFlightLedger : Ledger := ledgerSet emptyLedger "jobs" ⟨0, true⟩

/-! ## Cache coordinator lemmas -/

/-- Looking up the key just assigned returns the assigned entry. -/
theorem ledgerSet_lookup_self (cache : Ledger) (key : String) (e : CacheEntry) :
    ledgerSet cache key e key = some e := by
  simp [ledgerSet]

/-- An in-flight entry makes a non-forced `shouldFetchData` a no-op returning
`false`. -/
theorem shouldFetchData_of_inProgress (cache : Ledger) (now : Nat) (key : String)
    (e : CacheEntry) (hc : cache key = some e) (hp : e.inProgress = true) :
    shouldFetchData cache now key false = (false, cache) := by
  unfold shouldFetchData
  simp [hc, hp]

/-- When a non-forced `shouldFetchData` permits the fetch, the entry is
stamped `{ timestamp := now, inProgress := true }`. -/
theorem shouldFetchData_true_state (cache : Ledger) (now : Nat) (key : String)
    (h : (shouldFetchData cache now key false).1 = true) :
    (shouldFetchData cache now key false).2 = ledgerSet cache key ⟨now, true⟩ := by
  unfold shouldFetchData at h ⊢
  cases hc : cache key with
  | none => simp [hc]
  | some e =>
    simp only [hc, Bool.false_eq_true, if_false] at h ⊢
    by_cases hp : e.inProgress = true
    · simp [hp] at h
    · simp only [Bool.not_eq_true] at hp
      simp only [hp] at h ⊢
      by_cases hlt : (CACHE_EXPIRY : Int) < (now : Int) - (e.timestamp : Int)
      · simp [hlt]
      · simp [hlt] at h

/-- When a non-forced `shouldFetchData` refuses the fetch, the cache is
unchanged. -/
theorem shouldFetchData_false_state (cache : Ledger) (now : Nat) (key : String)
    (h : (shouldFetchData cache now key false).1 = false) :
    (shouldFetchData cache now key false).2 = cache := by
  unfold shouldFetchData at h ⊢
  cases hc : cache key with
  | none => simp [hc] at h
  | some e =>
    simp only [hc, Bool.false_eq_true, if_false] at h ⊢
    by_cases hp : e.inProgress = true
    · simp [hp]
    · simp only [Bool.not_eq_true] at hp
      simp only [hp] at h ⊢
      by_cases hlt : (CACHE_EXPIRY : Int) < (now : Int) - (e.timestamp : Int)
      · simp [hlt] at h
      · simp [hlt]

/-- While the entry stays in flight, every further non-forced call refuses
and leaves the cache unchanged. -/
theorem shouldFetchRuns_inProgress (key : String) (e : CacheEntry)
    (hp : e.inProgress = true) :
    ∀ (ts : List Nat) (cache : Ledger), cache key = some e →
    shouldFetchRuns cache key ts = (List.replicate ts.length false, cache) := by
  intro ts
  induction ts with
  | nil => intro cache _; simp [shouldFetchRuns]
  | cons t ts ih =>
    intro cache hc
    have h1 := shouldFetchData_of_inProgress cache t key e hc hp
    simp [shouldFetchRuns, h1, ih cache hc, List.replicate_succ]

/-! ## Claim C1 (corrected) -/

/-- C1 counterexample: running the normal protocol — `shouldFetchData` permits
a fetch at time 1000, `markFetchFailed` records the failure — the immediately
following `shouldFetchData("jobs")` returns `false`, not `true` as the claim
states: the timestamp stamped at fetch start is preserved, so the failed
fetch suppresses the prompt retry. -/
theorem failed_fetch_suppresses_retry_cex :
    (shouldFetchData emptyLedger 1000 "jobs" false).1 = true ∧
    (shouldFetchData (markFetchFailed (shouldFetchData emptyLedger 1000 "jobs" false).2 "jobs")
        1000 "jobs" false).1 = false := by
  decide

/-- C1 amended: after a permitted fetch at `t0` followed by
`markFetchFailed(key)`, the next `shouldFetchData(key)` at time `t1` returns
`true` exactly when the preserved start-of-fetch timestamp `t0` has already
aged past the freshness window — with negligible elapsed time it returns
`false`. -/
theorem markFetchFailed_retry_gated_by_window :
    ∀ (cache : Ledger) (t0 t1 : Nat) (key : String),
    (shouldFetchData cache t0 key false).1 = true →
    (shouldFetchData (markFetchFailed (shouldFetchData cache t0 key false).2 key) t1 key false).1
      = decide ((t1 : Int) - (t0 : Int) > (CACHE_EXPIRY : Int)) := by
  intro cache t0 t1 key h
  rw [shouldFetchData_true_state cache t0 key h]
  have hml : markFetchFailed (ledgerSet cache key ⟨t0, true⟩) key
      = ledgerSet (ledgerSet cache key ⟨t0, true⟩) key ⟨t0, false⟩ := by
    unfold markFetchFailed
    rw [ledgerSet_lookup_self]
    rfl
  rw [hml]
  have hlook := ledgerSet_lookup_self (ledgerSet cache key ⟨t0, true⟩) key ⟨t0, false⟩
  unfold shouldFetchData
  simp only [hlook, Bool.false_eq_true, if_false]
  by_cases hlt : (CACHE_EXPIRY : Int) < (t1 : Int) - (t0 : Int)
  · simp [hlt]
  · simp [hlt]

/-- C1 amended witness: with the start-of-fetch timestamp 0 and the retry
attempted at `CACHE_EXPIRY + 1 = 300001`, the next check returns `true`. -/
theorem markFetchFailed_retry_gated_by_window_witness :
    (shouldFetchData (markFetchFailed (shouldFetchData emptyLedger 0 "jobs" false).2 "jobs")
        300001 "jobs" false).1 = true := by
  have h := markFetchFailed_retry_gated_by_window emptyLedger 0 300001 "jobs" (by decide)
  rw [h]
  decide

/-! ## Claim C3 (confirmed) -/

/-- C3: (1) starting from a state with no ledger entry for `key`, in any
sequence of non-forced `shouldFetchData(key)` calls with no intervening
`markFetchComplete` / `markFetchFailed` / `invalidateCache`, only the first
call returns `true` and every later call returns `false`, whatever the call
times; (2) while the entry for `key` has `inProgress = true`, a non-forced
`shouldFetchData(key)` never permits a second fetch. -/
theorem fetch_dedup :
    (∀ (cache : Ledger) (key : String) (t : Nat) (ts : List Nat),
      cache key = none →
      (shouldFetchRuns cache key (t :: ts)).1 = true :: List.replicate ts.length false) ∧
    (∀ (cache : Ledger) (key : String) (e : CacheEntry) (now : Nat),
      cache key = some e → e.inProgress = true →
      (shouldFetchData cache now key false).1 = false) := by
  constructor
  · intro cache key t ts hc
    have h1 : shouldFetchData cache t key false = (true, ledgerSet cache key ⟨t, true⟩) := by
      unfold shouldFetchData
      simp [hc]
    have h2 := ledgerSet_lookup_self cache key ⟨t, true⟩
    simp [shouldFetchRuns, h1,
      shouldFetchRuns_inProgress key ⟨t, true⟩ rfl ts (ledgerSet cache key ⟨t, true⟩) h2]
  · intro cache key e now hc hp
    simp [shouldFetchData_of_inProgress cache now key e hc hp]

/-- C3 witness: from the empty ledger, three consecutive calls on `jobs`
yield `[true, false, false]`, and with an in-flight entry a call returns
`false`. -/
theorem fetch_dedup_witness :
    (shouldFetchRuns emptyLedger "jobs" [1, 2, 3]).1 = [true, false, false] ∧
    (shouldFetchData jobsInFlightLedger 5 "jobs" false).1 = false := by
  constructor
  · have h := fetch_dedup.1 emptyLedger "jobs" 1 [2, 3] rfl
    simpa using h
  · exact fetch_dedup.2 jobsInFlightLedger "jobs" ⟨0, true⟩ 5
      (ledgerSet_lookup_self emptyLedger "jobs" ⟨0, true⟩) rfl

/-! ## Claim C10 (confirmed) -/

/-- C10: whenever a non-forced `shouldFetchData("jobs")` refuses the fetch,
`fetchJobs` returns at once: the store state is unchanged, the fetch ledger
is unchanged, and no local-mirror or network access happens. -/
theorem fetchJobs_noop_when_suppressed :
    ∀ (cache : Ledger) (now nowComplete : Nat) (st : JobState)
      (localFirst localFallback : Option (List Job)) (net : Except ErrVal (List Job)),
    (shouldFetchData cache now "jobs" false).1 = false →
    fetchJobs cache now nowComplete st false localFirst localFallback net = (st, cache, []) := by
  intro cache now nc st l1 l2 net h
  have h2 := shouldFetchData_false_state cache now "jobs" h
  unfold fetchJobs
  simp [h, h2]

/-- C10 witness: with an in-flight `jobs` entry, `fetchJobs` leaves the
state, the ledger and the effect trace untouched. -/
theorem fetchJobs_noop_when_suppressed_witness :
    fetchJobs jobsInFlightLedger 5 6 ⟨[], false, none⟩ false none none (Except.ok [])
      = (⟨[], false, none⟩, jobsInFlightLedger, []) :=
  fetchJobs_noop_when_suppressed jobsInFlightLedger 5 6 ⟨[], false, none⟩ none none
    (Except.ok []) (by decide)

/-! ## Resilient executor lemmas -/

/-- Unfolding `withRetryGo` on a successful attempt. -/
theorem withRetryGo_ok (op : Nat → Except ErrVal α) (onLine : Bool)
    (attempt fuel : Nat) (v : α) (hop : op attempt = Except.ok v) :
    withRetryGo op onLine attempt fuel = (Except.ok v, 1) := by
  cases fuel <;> (unfold withRetryGo; rw [hop])

/-- Unfolding `withRetryGo` on a failed attempt that stops the loop:
either the retry budget is exhausted or the error is not retryable. -/
theorem withRetryGo_stop (op : Nat → Except ErrVal α) (onLine : Bool)
    (attempt fuel : Nat) (e : ErrVal) (hop : op attempt = Except.error e)
    (hstop : fuel = 0 ∨ shouldRetryOperation onLine e = false) :
    withRetryGo op onLine attempt fuel = (Except.error (createAppError onLine e none), 1) := by
  rcases hstop with h0 | hfalse
  · subst h0
    unfold withRetryGo
    rw [hop]
  · cases fuel with
    | zero =>
      unfold withRetryGo
      rw [hop]
    | succ fuel' =>
      unfold withRetryGo
      rw [hop]
      simp [hfalse]

/-- Unfolding `withRetryGo` on a failed attempt that is retried. -/
theorem withRetryGo_retry (op : Nat → Except ErrVal α) (onLine : Bool)
    (attempt fuel' : Nat) (e : ErrVal) (hop : op attempt = Except.error e)
    (hr : shouldRetryOperation onLine e = true) :
    withRetryGo op onLine attempt (fuel' + 1)
      = ((withRetryGo op onLine (attempt + 1) fuel').1,
         (withRetryGo op onLine (attempt + 1) fuel').2 + 1) := by
  conv_lhs => unfold withRetryGo
  rw [hop]
  simp [hr]

/-- `withRetryGo` performs at least one attempt. -/
theorem withRetryGo_count_pos (op : Nat → Except ErrVal α) (onLine : Bool) :
    ∀ (fuel attempt : Nat), 1 ≤ (withRetryGo op onLine attempt fuel).2 := by
  intro fuel attempt
  cases hop : op attempt with
  | ok v => rw [withRetryGo_ok op onLine attempt fuel v hop]
  | error e =>
    cases fuel with
    | zero => rw [withRetryGo_stop op onLine attempt 0 e hop (Or.inl rfl)]
    | succ fuel' =>
      cases hr : shouldRetryOperation onLine e with
      | false => rw [withRetryGo_stop op onLine attempt (fuel' + 1) e hop (Or.inr hr)]
      | true =>
        rw [withRetryGo_retry op onLine attempt fuel' e hop hr]
        exact Nat.le_add_left 1 _

/-- `withRetryGo` performs at most `fuel + 1` attempts. -/
theorem withRetryGo_count_le (op : Nat → Except ErrVal α) (onLine : Bool) :
    ∀ (fuel attempt : Nat), (withRetryGo op onLine attempt fuel).2 ≤ fuel + 1 := by
  intro fuel
  induction fuel with
  | zero =>
    intro attempt
    cases hop : op attempt with
    | ok v => rw [withRetryGo_ok op onLine attempt 0 v hop]
    | error e => rw [withRetryGo_stop op onLine attempt 0 e hop (Or.inl rfl)]
  | succ fuel' ih =>
    intro attempt
    cases hop : op attempt with
    | ok v =>
      rw [withRetryGo_ok op onLine attempt (fuel' + 1) v hop]
      omega
    | error e =>
      cases hr : shouldRetryOperation onLine e with
      | false =>
        rw [withRetryGo_stop op onLine attempt (fuel' + 1) e hop (Or.inr hr)]
        omega
      | true =>
        rw [withRetryGo_retry op onLine attempt fuel' e hop hr]
        have := ih (attempt + 1)
        omega

/-- Every attempt before the last one failed with a retryable error. -/
theorem withRetryGo_earlier_retryable (op : Nat → Except ErrVal α) (onLine : Bool) :
    ∀ (fuel attempt j : Nat), j + 1 < (withRetryGo op onLine attempt fuel).2 →
    ∃ e, op (attempt + j) = Except.error e ∧ shouldRetryOperation onLine e = true := by
  intro fuel
  induction fuel with
  | zero =>
    intro attempt j h
    cases hop : op attempt with
    | ok v => rw [withRetryGo_ok op onLine attempt 0 v hop] at h; omega
    | error e => rw [withRetryGo_stop op onLine attempt 0 e hop (Or.inl rfl)] at h; omega
  | succ fuel' ih =>
    intro attempt j h
    cases hop : op attempt with
    | ok v => rw [withRetryGo_ok op onLine attempt (fuel' + 1) v hop] at h; omega
    | error e =>
      cases hr : shouldRetryOperation onLine e with
      | false =>
        rw [withRetryGo_stop op onLine attempt (fuel' + 1) e hop (Or.inr hr)] at h
        omega
      | true =>
        rw [withRetryGo_retry op onLine attempt fuel' e hop hr] at h
        cases j with
        | zero => exact ⟨e, by simpa using hop, hr⟩
        | succ j' =>
          obtain ⟨e', he', hre'⟩ := ih (attempt + 1) j' (by simp at h; omega)
          refine ⟨e', ?_, hre'⟩
          rw [show attempt + (j' + 1) = attempt + 1 + j' by omega]
          exact he'

/-- When `withRetryGo` rejects, the standardized error is built from the raw
error of the last attempt performed. -/
theorem withRetryGo_last_error (op : Nat → Except ErrVal α) (onLine : Bool) :
    ∀ (fuel attempt : Nat) (a : AppError),
    (withRetryGo op onLine attempt fuel).1 = Except.error a →
    ∃ e, op (attempt + ((withRetryGo op onLine attempt fuel).2 - 1)) = Except.error e ∧
      a = createAppError onLine e none := by
  intro fuel
  induction fuel with
  | zero =>
    intro attempt a h
    cases hop : op attempt with
    | ok v => rw [withRetryGo_ok op onLine attempt 0 v hop] at h; simp at h
    | error e =>
      rw [withRetryGo_stop op onLine attempt 0 e hop (Or.inl rfl)] at h ⊢
      simp at h ⊢
      exact ⟨e, by simpa using hop, h.symm⟩
  | succ fuel' ih =>
    intro attempt a h
    cases hop : op attempt with
    | ok v => rw [withRetryGo_ok op onLine attempt (fuel' + 1) v hop] at h; simp at h
    | error e =>
      cases hr : shouldRetryOperation onLine e with
      | false =>
        rw [withRetryGo_stop op onLine attempt (fuel' + 1) e hop (Or.inr hr)] at h ⊢
        simp at h ⊢
        exact ⟨e, by simpa using hop, h.symm⟩
      | true =>
        rw [withRetryGo_retry op onLine attempt fuel' e hop hr] at h ⊢
        simp only [] at h
        obtain ⟨e', he', ha⟩ := ih (attempt + 1) a h
        refine ⟨e', ?_, ha⟩
        have hpos := withRetryGo_count_pos op onLine fuel' (attempt + 1)
        rw [show attempt + ((withRetryGo op onLine (attempt + 1) fuel').2 + 1 - 1)
            = attempt + 1 + ((withRetryGo op onLine (attempt + 1) fuel').2 - 1) by omega]
        exact he'

/-! ## Claim C2 (confirmed) -/

/-- C2: `withRetry` performs at most `maxRetries + 1` attempts; every attempt
before the last failed with an error classified into the retryable set
{network, server, database} — so it never continues past a validation or
authentication failure; and when it rejects, the standardized error is built
from the raw error of the last attempt. -/
theorem withRetry_retry_bound {α : Type} :
    ∀ (op : Nat → Except ErrVal α) (onLine : Bool) (maxRetries : Nat),
    (withRetry op onLine maxRetries).2 ≤ maxRetries + 1 ∧
    (∀ j, j + 1 < (withRetry op onLine maxRetries).2 →
      ∃ e, op j = Except.error e ∧ shouldRetryOperation onLine e = true) ∧
    (∀ a, (withRetry op onLine maxRetries).1 = Except.error a →
      ∃ e, op ((withRetry op onLine maxRetries).2 - 1) = Except.error e ∧
        a = createAppError onLine e none) := by
  intro op onLine maxRetries
  refine ⟨withRetryGo_count_le op onLine maxRetries 0, ?_, ?_⟩
  · intro j hj
    have h := withRetryGo_earlier_retryable op onLine maxRetries 0 j hj
    simpa using h
  · intro a ha
    have h := withRetryGo_last_error op onLine maxRetries 0 a ha
    simpa using h

/-- An operation that always fails with a network-classified error. -/
def opNetworkFail : Nat → Except ErrVal Unit :=
  fun _ => Except.error ⟨none, none, some "network down", false⟩

/-- C2 witness: with `maxRetries = 2` and a persistent network error, at most
3 attempts happen, and the attempt before the last indeed failed retryably. -/
theorem withRetry_retry_bound_witness :
    (withRetry opNetworkFail true 2).2 ≤ 3 ∧
    (∃ e, opNetworkFail 0 = Except.error e ∧ shouldRetryOperation true e = true) := by
  refine ⟨(withRetry_retry_bound opNetworkFail true 2).1, ?_⟩
  exact (withRetry_retry_bound opNetworkFail true 2).2.1 0 (by decide)

/-! ## Claim C6 (corrected) -/

/-- The error's `code` field matches no entry of the Supabase table. -/
def codeUnmapped (e : ErrVal) : Prop :=
  ∀ c, e.code = some c → supabaseErrorMap c = none

/-- C6 counterexample: status 501 is a 5xx status, yet with connectivity and
no backend code the classifier returns `unknown`, not `server` — the fixed
table maps only 429, 500, 502, 503 and 504 to `server`. -/
theorem http_5xx_not_all_server_cex :
    categorizeError true ⟨none, some 501, none, false⟩ = ErrorCategory.unknown ∧
    ErrorCategory.unknown ≠ ErrorCategory.server := by
  decide

/-- Helper: with connectivity, an unmapped `code` and a nonzero `status`
present in the HTTP table, classification returns the table's category. -/
theorem categorizeError_status (e : ErrVal) (h : codeUnmapped e) (s : Nat)
    (hs : e.status = some s) (hne : s ≠ 0) (c : ErrorCategory)
    (hmap : httpErrorMap s = some c) : categorizeError true e = c := by
  have hcode : (jsTruthyStr e.code && (supabaseErrorMap (e.code.getD "")).isSome) = false := by
    cases hc : e.code with
    | none => simp [jsTruthyStr]
    | some c' => simp [hc, jsTruthyStr, h c' hc]
  have hstat : (jsTruthyNat e.status && (httpErrorMap (e.status.getD 0)).isSome) = true := by
    simp [hs, jsTruthyNat, hmap, hne]
  unfold categorizeError
  rw [hcode, hstat]
  simp only [Bool.not_true, Bool.false_eq_true, if_false, if_true]
  rw [hs]
  simp [hmap]

/-- C6 amended: with connectivity and an error code matching no backend
table entry, the classifier maps 400, 409 and 422 to `validation`, 401 to
`authentication`, 403 to `authorization`, 404 to `not_found`, and 429, 500,
502, 503 and 504 to `server`; other 5xx statuses are not in the table and
fall through to the later rules. -/
theorem http_status_fixed_mapping :
    ∀ (e : ErrVal), codeUnmapped e →
    (e.status = some 400 → categorizeError true e = ErrorCategory.validation) ∧
    (e.status = some 409 → categorizeError true e = ErrorCategory.validation) ∧
    (e.status = some 422 → categorizeError true e = ErrorCategory.validation) ∧
    (e.status = some 401 → categorizeError true e = ErrorCategory.authentication) ∧
    (e.status = some 403 → categorizeError true e = ErrorCategory.authorization) ∧
    (e.status = some 404 → categorizeError true e = ErrorCategory.not_found) ∧
    (e.status = some 429 → categorizeError true e = ErrorCategory.server) ∧
    (e.status = some 500 → categorizeError true e = ErrorCategory.server) ∧
    (e.status = some 502 → categorizeError true e = ErrorCategory.server) ∧
    (e.status = some 503 → categorizeError true e = ErrorCategory.server) ∧
    (e.status = some 504 → categorizeError true e = ErrorCategory.server) := by
  intro e h
  refine ⟨fun hs => categorizeError_status e h 400 hs (by decide) _ (by decide),
    fun hs => categorizeError_status e h 409 hs (by decide) _ (by decide),
    fun hs => categorizeError_status e h 422 hs (by decide) _ (by decide),
    fun hs => categorizeError_status e h 401 hs (by decide) _ (by decide),
    fun hs => categorizeError_status e h 403 hs (by decide) _ (by decide),
    fun hs => categorizeError_status e h 404 hs (by decide) _ (by decide),
    fun hs => categorizeError_status e h 429 hs (by decide) _ (by decide),
    fun hs => categorizeError_status e h 500 hs (by decide) _ (by decide),
    fun hs => categorizeError_status e h 502 hs (by decide) _ (by decide),
    fun hs => categorizeError_status e h 503 hs (by decide) _ (by decide),
    fun hs => categorizeError_status e h 504 hs (by decide) _ (by decide)⟩

/-- C6 amended witness: a bare status-400 error classifies as `validation`. -/
theorem http_status_fixed_mapping_witness :
    categorizeError true ⟨none, some 400, none, false⟩ = ErrorCategory.validation :=
  (http_status_fixed_mapping ⟨none, some 400, none, false⟩
    (fun c hc => by simp at hc)).1 rfl

/-! ## Claim C7 (corrected) -/

/-- C7 counterexample: classification reads ambient state beyond the error
argument — the very same error value classifies as `offline` when
`navigator.onLine` is `false` and as `unknown` when it is `true`. -/
theorem classification_depends_on_connectivity_cex :
    categorizeError false ⟨none, none, none, false⟩ = ErrorCategory.offline ∧
    categorizeError true ⟨none, none, none, false⟩ = ErrorCategory.unknown ∧
    ErrorCategory.offline ≠ ErrorCategory.unknown := by
  decide

/-- C7 amended: classification is a pure function of the connectivity
reading together with the error value — two invocations agreeing on both
always yield the same category; connectivity is its only ambient input. -/
theorem categorizeError_deterministic :
    ∀ (onLine₁ onLine₂ : Bool) (e₁ e₂ : ErrVal), onLine₁ = onLine₂ → e₁ = e₂ →
    categorizeError onLine₁ e₁ = categorizeError onLine₂ e₂ := by
  intro onLine₁ onLine₂ e₁ e₂ h₁ h₂
  rw [h₁, h₂]

/-- C7 amended witness at a concrete connectivity reading and error. -/
theorem categorizeError_deterministic_witness :
    categorizeError true ⟨none, none, none, false⟩
      = categorizeError true ⟨none, none, none, false⟩ :=
  categorizeError_deterministic true true ⟨none, none, none, false⟩
    ⟨none, none, none, false⟩ rfl rfl

/-! ## Claim C4 (confirmed) -/

/-- C4: whenever a customer has at least one estimate, all of the customer's
estimates are rejected, and the completion short-circuit does not fire, the
stage derivation returns the empty sequence — for any `needsEstimate` and any
other entities: the rejected-only rule discards the stage appended by the
needs-estimate rule. -/
theorem rejected_only_returns_empty :
    ∀ (customerId : String) (needsEstimate : Bool) (estimates : List Estimate)
      (jobs : List Job) (invoices : List Invoice),
    completionDone customerId jobs invoices = false →
    customerEstimatesOf customerId estimates ≠ [] →
    (∀ est ∈ customerEstimatesOf customerId estimates, est.status = "rejected") →
    useCustomerStage customerId needsEstimate estimates jobs invoices = [] := by
  intro cid ne estimates jobs invoices hdone hne hall
  have hrej : hasRejectedEstimateOnly cid estimates = true := by
    unfold hasRejectedEstimateOnly
    rw [Bool.and_eq_true]
    constructor
    · cases h : customerEstimatesOf cid estimates with
      | nil => exact absurd h hne
      | cons a l => simp [h]
    · rw [List.all_eq_true]
      intro est hest
      simp [hall est hest]
  unfold useCustomerStage
  rw [hdone, hrej]
  simp

/-- C4 witness: the §8 instance — `needsEstimate = true`, a single rejected
estimate, no other entities — derives the empty sequence. -/
theorem rejected_only_returns_empty_witness :
    useCustomerStage "c1" true [⟨"c1", "rejected"⟩] [] [] = [] :=
  rejected_only_returns_empty "c1" true [⟨"c1", "rejected"⟩] [] []
    (by decide) (by decide) (by decide)

/-! ## Claim C5 (confirmed) -/

/-- C5: with exactly one pending estimate and exactly one scheduled
non-estimate-visit job for the customer and no invoices, the derivation
returns exactly `[Job Scheduled, Pending Estimate]` in that order (rule 5
before rule 7); the derivation is a pure function of the snapshots, so
identical inputs give identical, order-stable output. -/
theorem stage_multiplicity :
    ∀ (customerId : String) (est : Estimate) (job : Job),
    est.customer_id = customerId → est.status = "pending" →
    job.customer_id = customerId → job.status = "scheduled" →
    isEstimateVisitJob job = false →
    useCustomerStage customerId false [est] [job] []
      = [jobScheduledStage, pendingEstimateStage] := by
  intro cid est job he1 he2 hj1 hj2 hev
  simp [useCustomerStage, completionDone, allJobsHaveInvoices, allInvoicesPaid,
    customerJobsOf, customerInvoicesOf, customerEstimatesOf, hasRejectedEstimateOnly,
    hasPendingPayment, hasScheduledJob, hasScheduledEstimateVisit, hasPendingEstimate,
    hasApprovedEstimate, hasCompletedJobNeedingInvoice, he1, he2, hj1, hj2, hev]

/-- C5 witness at concrete records. -/
theorem stage_multiplicity_witness :
    useCustomerStage "c1" false [⟨"c1", "pending"⟩]
      [⟨"j1", "c1", "Install fence", "scheduled", "2025-01-01"⟩] []
      = [jobScheduledStage, pendingEstimateStage] :=
  stage_multiplicity "c1" ⟨"c1", "pending"⟩
    ⟨"j1", "c1", "Install fence", "scheduled", "2025-01-01"⟩
    rfl rfl rfl rfl (by decide)

/-! ## Claim C9 (confirmed) -/

/-- C9: a customer with no non-estimate-visit jobs (only estimate-visit jobs
or none at all) never triggers the completion short-circuit: with
`needsEstimate = true` and no estimates, whatever the invoices — in
particular all paid or void — the derived sequence still starts with the
Estimates Queue stage and so is non-empty. -/
theorem estimate_only_customer_never_complete :
    ∀ (customerId : String) (estimates : List Estimate) (jobs : List Job)
      (invoices : List Invoice),
    customerJobsOf customerId jobs = [] →
    customerEstimatesOf customerId estimates = [] →
    ∃ rest, useCustomerStage customerId true estimates jobs invoices
      = estimatesQueueStage :: rest := by
  intro cid estimates jobs invoices hjobs hest
  have hdone : completionDone cid jobs invoices = false := by
    unfold completionDone allJobsHaveInvoices
    rw [hjobs]
    simp
  have hrej : hasRejectedEstimateOnly cid estimates = false := by
    unfold hasRejectedEstimateOnly
    rw [hest]
    simp
  unfold useCustomerStage
  rw [hdone, hrej]
  simp only [Bool.false_eq_true, if_false, if_true, List.singleton_append,
    List.cons_append, List.append_assoc]
  exact ⟨_, rfl⟩

/-- C9 witness: a customer with one paid invoice, no jobs and no estimates
still derives the non-empty sequence starting with Estimates Queue. -/
theorem estimate_only_customer_never_complete_witness :
    ∃ rest, useCustomerStage "c1" true [] [] [⟨"c1", some "j9", "paid"⟩]
      = estimatesQueueStage :: rest :=
  estimate_only_customer_never_complete "c1" [] [] [⟨"c1", some "j9", "paid"⟩] rfl rfl

/-! ## Claim C8 (corrected) -/

/-- C8 counterexample: an online `addJob` whose remote insert fails does not
reject — the catch clause records the message and resolves with `null`
(`Except.ok none`), so the failure does not surface as a hard error. -/
theorem addJob_online_failure_resolves_null_cex :
    (addJob ⟨[], false, none⟩ emptyLedger true
        (AddJobInput.single ⟨"c1", "Fix sink", "scheduled"⟩)
        (fun _ => "id-0") "2025-01-01T00:00:00Z"
        (Except.error ⟨none, none, some "insert failed", false⟩)
        (Except.error ⟨none, none, some "insert failed", false⟩)).1
      = Except.ok none := by
  rfl

/-- C8 amended: while online, a remote failure in `updateJob` or `deleteJob`
rejects with that error, but `addJob` resolves with `null`, recording the
message in the store's error field instead of rejecting. -/
theorem online_mutation_failure_surfacing :
    ∀ (st : JobState) (cache : Ledger) (id : String) (p : JobPatch)
      (input : AddJobInput) (freshId : Nat → String) (nowIso : String) (e : ErrVal),
    (updateJob st cache true id p (Except.error e)).1 = Except.error e ∧
    (deleteJob st cache true id (Except.error e)).1 = Except.error e ∧
    (addJob st cache true input freshId nowIso (Except.error e) (Except.error e)).1
      = Except.ok none := by
  intro st cache id p input freshId nowIso e
  refine ⟨rfl, rfl, ?_⟩
  cases input <;> rfl

end ServFlo
